import Mathlib

/-!
Verification development for the geofenced corridor tracking engine of the
klenoboardinghouse backend (CUZ/USERS/kleno_tracking.py and the haversine
utilities in CUZ/routers/).

Numbers: the Python code computes with floats; this embedding uses exact
rationals (ℚ) for the session machine and exact reals (ℝ) for the
trigonometric geodesy functions.  `round(x, 3)` in the source is embedded as
`round3`, exact round-half-to-even at three decimals (Python's rounding mode).

Timestamps: the source exchanges ISO-8601 UTC strings and only ever uses them
through `parse_iso` / `now_iso` (elided from the source, "keep existing
utilities"); a timestamp is embedded as a rational number of minutes, and a
session's `started_at` as `Option ℚ` — `none` standing for a missing or
unparseable string, which the source maps to an elapsed time of 0.
-/

namespace Kleno

/-- Round a rational to the nearest integer, halves to even: the rounding mode
of Python's builtin `round`, used by `kleno_tracking.py` as `round(x, 3)`. -/
def pyRound (q : ℚ) : ℤ :=
  if q - ⌊q⌋ < 1/2 then ⌊q⌋
  else if 1/2 < q - ⌊q⌋ then ⌊q⌋ + 1
  else if ⌊q⌋ % 2 = 0 then ⌊q⌋ else ⌊q⌋ + 1

/-- `round(x, 3)` of the source: round-half-even at three decimal places. -/
def round3 (q : ℚ) : ℚ := (pyRound (q * 1000) : ℚ) / 1000

theorem pyRound_ge_floor (q : ℚ) : ⌊q⌋ ≤ pyRound q := by
  unfold pyRound; split_ifs <;> omega

theorem pyRound_le_floor_add_one (q : ℚ) : pyRound q ≤ ⌊q⌋ + 1 := by
  unfold pyRound; split_ifs <;> omega

theorem pyRound_intCast (m : ℤ) : pyRound (m : ℚ) = m := by
  unfold pyRound
  rw [Int.floor_intCast]
  simp

theorem pyRound_mono {q r : ℚ} (h : q ≤ r) : pyRound q ≤ pyRound r := by
  rcases lt_or_eq_of_le (Int.floor_le_floor h) with hf | hf
  · calc pyRound q ≤ ⌊q⌋ + 1 := pyRound_le_floor_add_one q
      _ ≤ ⌊r⌋ := by omega
      _ ≤ pyRound r := pyRound_ge_floor r
  · unfold pyRound
    rw [← hf]
    have h2 : q - ⌊q⌋ ≤ r - ⌊q⌋ := by linarith
    split_ifs with a1 a2 b1 b2 b3 b4 b5 b6 b7 b8 b9 <;> try omega
    all_goals (exfalso; linarith)

theorem pyRound_add_int {q : ℚ} {k : ℤ} (hk : k % 2 = 0) :
    pyRound (q + (k : ℚ)) = pyRound q + k := by
  unfold pyRound
  have hfl : ⌊q + (k : ℚ)⌋ = ⌊q⌋ + k := Int.floor_add_int q k
  rw [hfl]
  have h2 : q + (k : ℚ) - ((⌊q⌋ + k : ℤ) : ℚ) = q - ⌊q⌋ := by push_cast; ring
  rw [h2]
  have h3 : (⌊q⌋ + k) % 2 = ⌊q⌋ % 2 := by omega
  rw [h3]
  split_ifs <;> omega

theorem round3_mono {q r : ℚ} (h : q ≤ r) : round3 q ≤ round3 r := by
  unfold round3
  have h1 : q * 1000 ≤ r * 1000 := by linarith
  have h2 := pyRound_mono h1
  have h3 : (pyRound (q * 1000) : ℚ) ≤ (pyRound (r * 1000) : ℚ) := by exact_mod_cast h2
  linarith

theorem round3_thousandth (m : ℤ) : round3 ((m : ℚ) / 1000) = (m : ℚ) / 1000 := by
  unfold round3
  have h1 : (m : ℚ) / 1000 * 1000 = (m : ℚ) := by field_simp
  rw [h1, pyRound_intCast]

theorem round3_add_div500 (q : ℚ) (k : ℤ) :
    round3 (q + (k : ℚ) / 500) = round3 q + (k : ℚ) / 500 := by
  unfold round3
  have h1 : (q + (k : ℚ) / 500) * 1000 = q * 1000 + ((2 * k : ℤ) : ℚ) := by
    push_cast; ring
  rw [h1, pyRound_add_int (by omega : (2 * k) % 2 = 0)]
  push_cast
  ring

/-- A latitude/longitude pair (floats in the source, exact rationals here). -/
structure GeoPoint where
  lat : ℚ
  lon : ℚ
deriving DecidableEq

/-- The fields of a boarding-house document that `_get_boardinghouse_coords`
reads: `yango_coordinates` and `GPS_coordinates`, each an optional coordinate
list. -/
structure BHDoc where
  yango_coordinates : Option (List ℚ)
  GPS_coordinates : Option (List ℚ)
deriving DecidableEq

/-- The fields of a student document that `_get_student_stored_location`
reads: optional stored `lat` / `lon`. -/
structure StudentDoc where
  lat : Option ℚ
  lon : Option ℚ
deriving DecidableEq

/-- The typed errors of the engine: one per `HTTPException` site of
`kleno_tracking.py` (spec §7 maps exceptions to typed error values). -/
inductive TrackError where
  | boardingHouseNotFound
  | destinationCoordinatesMissing
  | studentNotFound
  | noStoredLocation
  | sessionNotFound
  | sessionNotActive
deriving DecidableEq

/-- One breadcrumb dict.  The "start" breadcrumb written by
`start_session_by_house` carries no `deviation_km` key while resume
breadcrumbs do, hence the `Option`. -/
structure Breadcrumb where
  lat : ℚ
  lon : ℚ
  captured_at : ℚ
  distance_to_dest_km : ℚ
  deviation_km : Option ℚ
  heading : String
  movement : String
  bubble_radius_km : ℚ
  allowed_dev_km : ℚ
deriving DecidableEq

/-- The `cardinal` dict of the bubble: four per-direction radii (the source
writes the same rounded radius into all four). -/
structure CardinalKm where
  N_km : ℚ
  S_km : ℚ
  E_km : ℚ
  W_km : ℚ
deriving DecidableEq

/-- The `bubble` dict of a session document. -/
structure Bubble where
  center : GeoPoint
  radius_km : ℚ
  R0_km : ℚ
  min_radius_km : ℚ
  shrink_step_km : ℚ
  shrink_interval_min : ℚ
  last_shrink_at : ℚ
  shrink_step_count : ℤ
  cardinal : CardinalKm
deriving DecidableEq

/-- The `metrics` dict of a session document. -/
structure Metrics where
  points_logged : ℤ
  max_deviation_km : ℚ
  last_distance_km : ℚ
  last_deviation_km : ℚ
deriving DecidableEq

/-- A deviation/return alert.  The source appends formatted strings; this
embedding keeps them as typed values carrying the quantities interpolated
into the message (spec §9 maps string alerts to typed values). -/
inductive Alert where
  | soft (dev_km allowed_km : ℚ) (heading movement : String)
  | hard (dev_km allowed_km : ℚ) (heading movement : String)
  | returning (allowed_km : ℚ) (heading movement : String)
deriving DecidableEq

def Alert.isSoft : Alert → Bool
  | .soft _ _ _ _ => true
  | _ => false

def Alert.isHard : Alert → Bool
  | .hard _ _ _ _ => true
  | _ => false

def Alert.isReturning : Alert → Bool
  | .returning _ _ _ => true
  | _ => false

/-- One `bubble_history` entry.  The `init` entry written at start has no
`prev_radius_km`/`steps_elapsed` keys, hence the `Option`s.  (`at_` stands
for the source's `at` key, a Lean keyword.) -/
structure BubbleEvent where
  at_ : ℚ
  radius_km : ℚ
  prev_radius_km : Option ℚ
  steps_elapsed : Option ℤ
  reason : String
deriving DecidableEq

/-- A session document as written by `start_session_by_house` and updated by
`resume_session_by_house`. -/
structure Session where
  session_id : String
  university : String
  user_id : String
  boardinghouse_id : String
  started_at : Option ℚ
  status : String
  origin : GeoPoint
  destination : GeoPoint
  distance_km_straight : ℚ
  bubble : Bubble
  client_note : Option String
  breadcrumbs : List Breadcrumb
  metrics : Metrics
  alerts : List Alert
  bubble_history : List BubbleEvent
  last_updated_at : Option ℚ
deriving DecidableEq

/-- Modelled from the spec: the module-level tracking constants of
`kleno_tracking.py` (`MIN_RADIUS_KM`, `SHRINK_STEP_KM`, `SHRINK_INTERVAL_MIN`,
`SAFETY_MARGIN_KM`, `LATERAL_ALLOWANCE_RATIO`) whose defining assignments are
elided from the source ("keep existing … config"); spec §9 passes them as an
explicit `BubbleConfig` value, which this embedding does. -/
structure BubbleConfig where
  min_radius_km : ℚ
  shrink_step_km : ℚ
  shrink_interval_min : ℚ
  safety_margin_km : ℚ
  lateral_allowance_ratio : ℚ

/-- Modelled from the spec: the geodesy utilities `haversine_km`,
`point_to_segment_distance` and `bearing` called by `kleno_tracking.py` are
elided from the source ("keep existing utilities").  Spec §4.1 specifies them
as pure deterministic functions; the session machine is parameterized over
them. -/
structure GeoKernel where
  haversine_km : ℚ → ℚ → ℚ → ℚ → ℚ
  point_to_segment_distance : ℚ → ℚ → ℚ → ℚ → ℚ → ℚ → ℚ
  bearing : ℚ → ℚ → ℚ → ℚ → ℚ

/-- Modelled from the spec: `DirectionLabel` (spec §4.1), the elided
`direction_label` utility — the 8-way compass sector of a bearing in
`[0, 360)`, each sector spanning 45° centered on its value ("N" covers
`[337.5°, 22.5°)`). -/
def direction_label (b : ℚ) : String :=
  if b < 45/2 then "N"
  else if b < 135/2 then "NE"
  else if b < 225/2 then "E"
  else if b < 315/2 then "SE"
  else if b < 405/2 then "S"
  else if b < 495/2 then "SW"
  else if b < 585/2 then "W"
  else if b < 675/2 then "NW"
  else "N"

/-- Firestore's `ArrayUnion` primitive, used by the source for
`breadcrumbs`, `alerts` and `bubble_history`: appends, in order, each element
of `new` that is not already present in the array. -/
def arrayUnion {α : Type} [DecidableEq α] (xs new : List α) : List α :=
  new.foldl (fun acc a => if a ∈ acc then acc else acc ++ [a]) xs

/-- `_get_boardinghouse_coords`: the two document reads (`BOARDINGHOUSES/{id}`
then `HOME/{university}/BOARDHOUSE/{id}`) are passed in as the two `Option`
arguments; `bh.get("yango_coordinates") or bh.get("GPS_coordinates")` with
Python truthiness (a present-but-empty list is falsy), then the length-2
check. -/
def get_boardinghouse_coords (bhMain bhFallback : Option BHDoc) :
    Except TrackError (ℚ × ℚ) :=
  match (match bhMain with | some b => some b | none => bhFallback) with
  | none => .error .boardingHouseNotFound
  | some bh =>
    match (match bh.yango_coordinates with
           | some l => if l = [] then bh.GPS_coordinates else some l
           | none => bh.GPS_coordinates) with
    | some [a, b] => .ok (a, b)
    | _ => .error .destinationCoordinatesMissing

/-- `_get_student_stored_location`: the student document read is passed in as
the `Option` argument. -/
def get_student_stored_location (sd : Option StudentDoc) :
    Except TrackError (ℚ × ℚ) :=
  match sd with
  | none => .error .studentNotFound
  | some s =>
    match s.lat, s.lon with
    | some a, some b => .ok (a, b)
    | _, _ => .error .noStoredLocation

/-- Position resolution shared by start and resume: `if current_lat is None
or current_lon is None`, fall back to the student's stored location. -/
def resolveCurrent (current_lat current_lon : Option ℚ) (sd : Option StudentDoc) :
    Except TrackError GeoPoint :=
  match current_lat, current_lon with
  | some a, some b => .ok ⟨a, b⟩
  | _, _ => (get_student_stored_location sd).map (fun p => ⟨p.1, p.2⟩)

/-- The `index` record written next to a new session. -/
structure IndexRecord where
  session_id : String
  status : String
  started_at : ℚ
  boardinghouse_id : String
  distance_km_straight : ℚ
  bubble_radius_km : ℚ
deriving DecidableEq

/-- The JSON body returned by `start_session_by_house`. -/
structure StartResponse where
  message : String
  session_id : String
  bubble_radius_km : ℚ
  distance_km_straight : ℚ
  destination : GeoPoint
  origin : GeoPoint
deriving DecidableEq

/-- The JSON body returned by `resume_session_by_house`. -/
structure ResumeResponse where
  message : String
  destination : GeoPoint
  distance_to_dest_km : ℚ
  deviation_km : ℚ
  bubble_radius_km : ℚ
  allowed_dev_km : ℚ
  alerts : List Alert
deriving DecidableEq

/-- Elapsed minutes since session start, as computed by
`resume_session_by_house`: `0.0` when `started_at` is missing or fails to
parse (`none`), `now - started_at` otherwise. -/
def computeElapsed (started_at : Option ℚ) (now : ℚ) : ℚ :=
  match started_at with
  | some t0 => now - t0
  | none => 0

/-- The stepped shrink with safety floor (`ComputeRadius` of spec §8):
`n_steps = int(elapsed // interval)`, `candidate = R0 - n_steps * step`,
`radius = max(min_radius, d + safety_margin, candidate)`. -/
def computeRadius (cfg : BubbleConfig) (R0 d elapsed : ℚ) : ℚ :=
  max cfg.min_radius_km
    (max (d + cfg.safety_margin_km)
      (R0 - (⌊elapsed / cfg.shrink_interval_min⌋ : ℚ) * cfg.shrink_step_km))

/-- `start_session_by_house` (identity enforcement, an excluded HTTP/auth
concern per spec §1, happens before the engine is entered).  The boarding
house and student documents, the generated `session_id` (a uuid in the
source) and the wall-clock time `now` (`now_iso()`) are inputs. -/
def start_session_by_house (cfg : BubbleConfig) (K : GeoKernel)
    (university student_id boardinghouse_id : String)
    (bhMain bhFallback : Option BHDoc)
    (current_lat current_lon : Option ℚ) (student : Option StudentDoc)
    (note : Option String) (session_id : String) (now : ℚ) :
    Except TrackError (Session × IndexRecord × StartResponse) :=
  match get_boardinghouse_coords bhMain bhFallback with
  | .error e => .error e
  | .ok (dest_lat, dest_lon) =>
    match resolveCurrent current_lat current_lon student with
    | .error e => .error e
    | .ok origin =>
      let straight_km := K.haversine_km origin.lat origin.lon dest_lat dest_lon
      let R0 := max 2 (straight_km + 2)
      let radius_km := R0
      let session : Session :=
        { session_id := session_id
          university := university
          user_id := student_id
          boardinghouse_id := boardinghouse_id
          started_at := some now
          status := "active"
          origin := origin
          destination := ⟨dest_lat, dest_lon⟩
          distance_km_straight := round3 straight_km
          bubble :=
            { center := ⟨dest_lat, dest_lon⟩
              radius_km := round3 radius_km
              R0_km := round3 R0
              min_radius_km := cfg.min_radius_km
              shrink_step_km := cfg.shrink_step_km
              shrink_interval_min := cfg.shrink_interval_min
              last_shrink_at := now
              shrink_step_count := 0
              cardinal := ⟨round3 radius_km, round3 radius_km, round3 radius_km,
                round3 radius_km⟩ }
          client_note := note
          breadcrumbs :=
            [{ lat := origin.lat
               lon := origin.lon
               captured_at := now
               distance_to_dest_km := round3 straight_km
               deviation_km := none
               heading := direction_label
                 (K.bearing origin.lat origin.lon origin.lat origin.lon)
               movement := "start"
               bubble_radius_km := round3 radius_km
               allowed_dev_km := round3 (cfg.lateral_allowance_ratio * radius_km) }]
          metrics :=
            { points_logged := 1
              max_deviation_km := 0
              last_distance_km := round3 straight_km
              last_deviation_km := 0 }
          alerts := []
          bubble_history :=
            [{ at_ := now
               radius_km := round3 radius_km
               prev_radius_km := none
               steps_elapsed := none
               reason := "init" }]
          last_updated_at := none }
      let index : IndexRecord :=
        { session_id := session_id
          status := "active"
          started_at := now
          boardinghouse_id := boardinghouse_id
          distance_km_straight := round3 straight_km
          bubble_radius_km := round3 radius_km }
      let resp : StartResponse :=
        { message := "Tracking session started"
          session_id := session_id
          bubble_radius_km := round3 radius_km
          distance_km_straight := round3 straight_km
          destination := ⟨dest_lat, dest_lon⟩
          origin := origin }
      .ok (session, index, resp)

/-- The body of `resume_session_by_house` once the session document `s` has
been fetched: status check, destination re-resolution, position resolution,
distance/deviation computation, stepped shrink with safety floor, alert
decision, then the session update (`ArrayUnion` appends, `Increment`,
field rewrites, conditional `bubble_history` entry). -/
def resumeOnSession (cfg : BubbleConfig) (K : GeoKernel) (s : Session)
    (bhMain bhFallback : Option BHDoc) (boardinghouse_id : String)
    (current_lat current_lon : Option ℚ) (student : Option StudentDoc)
    (now : ℚ) : Except TrackError (Session × ResumeResponse) :=
  if s.status ≠ "active" then .error .sessionNotActive
  else
    match get_boardinghouse_coords bhMain bhFallback with
    | .error e => .error e
    | .ok (dest_lat, dest_lon) =>
      match resolveCurrent current_lat current_lon student with
      | .error e => .error e
      | .ok cur =>
        let d_km := K.haversine_km cur.lat cur.lon dest_lat dest_lon
        let origin := s.origin
        let dev_km := K.point_to_segment_distance cur.lat cur.lon
          origin.lat origin.lon dest_lat dest_lon
        let max_dev := max s.metrics.max_deviation_km dev_km
        let R0 := s.bubble.R0_km
        let prev_radius := s.bubble.radius_km
        let elapsed_minutes := computeElapsed s.started_at now
        let n_steps : ℤ := ⌊elapsed_minutes / cfg.shrink_interval_min⌋
        let radius_km := computeRadius cfg R0 d_km elapsed_minutes
        let allowed_dev_km := cfg.lateral_allowance_ratio * radius_km
        let heading := direction_label
          (K.bearing origin.lat origin.lon cur.lat cur.lon)
        let prev_dist := s.metrics.last_distance_km
        let movement := if d_km < prev_dist then "closer to destination"
          else "away from destination"
        let point : Breadcrumb :=
          { lat := cur.lat
            lon := cur.lon
            captured_at := now
            distance_to_dest_km := round3 d_km
            deviation_km := some (round3 dev_km)
            heading := heading
            movement := movement
            bubble_radius_km := round3 radius_km
            allowed_dev_km := round3 allowed_dev_km }
        let overage : List Alert :=
          if allowed_dev_km < dev_km ∧ dev_km < 1 then
            [.soft dev_km allowed_dev_km heading movement]
          else if 1 ≤ dev_km then
            [.hard dev_km allowed_dev_km heading movement]
          else []
        let prev_dev := s.metrics.last_deviation_km
        let alerts := overage ++
          (if allowed_dev_km < prev_dev ∧ dev_km ≤ allowed_dev_km then
            [.returning allowed_dev_km heading movement]
          else [])
        let radiusChanged := round3 radius_km ≠ round3 prev_radius
        let s' : Session :=
          { s with
            destination := ⟨dest_lat, dest_lon⟩
            boardinghouse_id := boardinghouse_id
            breadcrumbs := arrayUnion s.breadcrumbs [point]
            metrics :=
              { points_logged := s.metrics.points_logged + 1
                max_deviation_km := round3 max_dev
                last_deviation_km := round3 dev_km
                last_distance_km := round3 d_km }
            last_updated_at := some now
            bubble :=
              { s.bubble with
                radius_km := round3 radius_km
                cardinal := ⟨round3 radius_km, round3 radius_km,
                  round3 radius_km, round3 radius_km⟩
                shrink_step_count := n_steps
                shrink_step_km := cfg.shrink_step_km
                shrink_interval_min := cfg.shrink_interval_min
                min_radius_km := cfg.min_radius_km
                last_shrink_at := if radiusChanged then now
                  else s.bubble.last_shrink_at }
            bubble_history :=
              if radiusChanged then
                arrayUnion s.bubble_history
                  [{ at_ := now
                     radius_km := round3 radius_km
                     prev_radius_km := some (round3 prev_radius)
                     steps_elapsed := some n_steps
                     reason := "stepped_shrink_with_safety_floor" }]
              else s.bubble_history
            alerts := arrayUnion s.alerts alerts }
        let resp : ResumeResponse :=
          { message := "Session resumed and breadcrumb logged"
            destination := ⟨dest_lat, dest_lon⟩
            distance_to_dest_km := round3 d_km
            deviation_km := round3 dev_km
            bubble_radius_km := round3 radius_km
            allowed_dev_km := round3 allowed_dev_km
            alerts := alerts }
        .ok (s', resp)

/-- The session store: the documents under `sessions/`, keyed by session id
(spec §6 `SessionStore`). -/
def Store : Type := List (String × Session)

/-- `SessionStore.Load`: the `session_ref.get()` read. -/
def storeFind (st : Store) (session_id : String) : Option Session :=
  (List.find? (fun p => p.1 == session_id) st).map (fun p => p.2)

/-- `SessionStore.Save`: the `session_ref.update(...)` write-back. -/
def storeUpdate (st : Store) (session_id : String) (s : Session) : Store :=
  List.map (fun p => if p.1 == session_id then (session_id, s) else p) st

/-- `resume_session_by_house` at store level: fetch the session (404 when
absent), run the transition, write back on success.  On any failure the
store is returned unchanged — the source raises before the first
`session_ref.update`. -/
def resume_session_by_house (cfg : BubbleConfig) (K : GeoKernel) (st : Store)
    (session_id : String) (bhMain bhFallback : Option BHDoc)
    (boardinghouse_id : String) (current_lat current_lon : Option ℚ)
    (student : Option StudentDoc) (now : ℚ) :
    Store × Except TrackError ResumeResponse :=
  match storeFind st session_id with
  | none => (st, .error .sessionNotFound)
  | some s =>
    match resumeOnSession cfg K s bhMain bhFallback boardinghouse_id
        current_lat current_lon student now with
    | .error e => (st, .error e)
    | .ok (s', resp) => (storeUpdate st session_id s', .ok resp)

/-- The reachable session states: the state written by `StartSession`, and
any state produced from a reachable state by a successful `ResumeSession`
(spec §3 lifecycle). -/
inductive ReachableSession (cfg : BubbleConfig) (K : GeoKernel) : Session → Prop where
  | start_case :
      ∀ (u sid bid : String) (bhMain bhFallback : Option BHDoc)
        (la lo : Option ℚ) (sd : Option StudentDoc) (note : Option String)
        (ssid : String) (now : ℚ) (s : Session) (idx : IndexRecord)
        (resp : StartResponse),
        start_session_by_house cfg K u sid bid bhMain bhFallback la lo sd
          note ssid now = .ok (s, idx, resp) →
        ReachableSession cfg K s
  | resume_case :
      ∀ (s : Session) (bhMain bhFallback : Option BHDoc) (bid : String)
        (la lo : Option ℚ) (sd : Option StudentDoc) (now : ℚ)
        (s' : Session) (resp : ResumeResponse),
        ReachableSession cfg K s →
        resumeOnSession cfg K s bhMain bhFallback bid la lo sd now =
          .ok (s', resp) →
        ReachableSession cfg K s'

/-- `math.radians`: degrees to radians. -/
noncomputable def radians (x : ℝ) : ℝ := x * Real.pi / 180

/-- `math.atan2 y x`: the two-argument arctangent (C convention).  Only the
`0 < x` branch is exercised by the haversine formulas, where `x` is a square
root. -/
noncomputable def atan2 (y x : ℝ) : ℝ :=
  if 0 < x then Real.arctan (y / x)
  else if x < 0 ∧ 0 ≤ y then Real.arctan (y / x) + Real.pi
  else if x < 0 ∧ y < 0 then Real.arctan (y / x) - Real.pi
  else if x = 0 ∧ 0 < y then Real.pi / 2
  else if x = 0 ∧ y < 0 then -(Real.pi / 2)
  else 0

/-- `haversine` of `CUZ/routers/directions.py` (identical formula in
`CUZ/ProxyLocation/fine_me.py` up to the meters scale): great-circle distance
in km, mean Earth radius 6371 km. -/
noncomputable def directions_haversine (lat1 lon1 lat2 lon2 : ℝ) : ℝ :=
  let dlat := radians (lat2 - lat1)
  let dlon := radians (lon2 - lon1)
  let a := Real.sin (dlat / 2) ^ 2 +
    Real.cos (radians lat1) * Real.cos (radians lat2) * Real.sin (dlon / 2) ^ 2
  6371 * (2 * atan2 (Real.sqrt a) (Real.sqrt (1 - a)))

/-- `haversine` of `CUZ/routers/region_router.py`, transcribed exactly: its
longitude difference reads `dlon = math.radians(lat2 - lon1)`. -/
noncomputable def region_haversine (lat1 lon1 lat2 lon2 : ℝ) : ℝ :=
  let dlat := radians (lat2 - lat1)
  let dlon := radians (lat2 - lon1)
  let a := Real.sin (dlat / 2) ^ 2 +
    Real.cos (radians lat1) * Real.cos (radians lat2) * Real.sin (dlon / 2) ^ 2
  6371 * (2 * atan2 (Real.sqrt a) (Real.sqrt (1 - a)))

theorem radians_neg (u : ℝ) : radians (-u) = -(radians u) := by
  unfold radians; ring

theorem sin_sq_radians_neg (u : ℝ) :
    Real.sin (radians (-u) / 2) ^ 2 = Real.sin (radians u / 2) ^ 2 := by
  rw [radians_neg, neg_div, Real.sin_neg, neg_sq]

/-- C7: `HaversineKm` as implemented in `CUZ/routers/directions.py` is
symmetric and returns 0 on identical points; but the copy in
`CUZ/routers/region_router.py` computes `dlon` from `lat2 - lon1` (a slip)
and consequently returns a nonzero distance for the point (0, 90) paired
with itself. -/
theorem haversine_symmetry_and_region_router_slip :
    (∀ lat1 lon1 lat2 lon2 : ℝ,
      directions_haversine lat1 lon1 lat2 lon2 =
        directions_haversine lat2 lon2 lat1 lon1)
    ∧ (∀ lat lon : ℝ, directions_haversine lat lon lat lon = 0)
    ∧ region_haversine 0 90 0 90 ≠ 0 := by
  refine ⟨?_, ?_, ?_⟩
  · intro lat1 lon1 lat2 lon2
    show 6371 * (2 * atan2 _ _) = 6371 * (2 * atan2 _ _)
    have e1 : lat1 - lat2 = -(lat2 - lat1) := by ring
    have e2 : lon1 - lon2 = -(lon2 - lon1) := by ring
    rw [e1, e2, sin_sq_radians_neg, sin_sq_radians_neg,
      mul_comm (Real.cos (radians lat2)) (Real.cos (radians lat1))]
  · intro lat lon
    show 6371 * (2 * atan2 _ _) = 0
    have hz : radians (lat - lat) = 0 := by rw [sub_self]; unfold radians; ring
    have hz' : radians (lon - lon) = 0 := by rw [sub_self]; unfold radians; ring
    rw [hz, hz', zero_div, Real.sin_zero]
    norm_num
    unfold atan2
    rw [if_pos one_pos, zero_div, Real.arctan_zero]
  · have h00 : radians ((0:ℝ) - 0) = 0 := by unfold radians; ring
    have hr0 : radians (0:ℝ) = 0 := by unfold radians; ring
    have h90 : radians ((0:ℝ) - 90) = -(Real.pi / 4 * 2) := by unfold radians; ring
    have hs : Real.sin (-(Real.pi / 4 * 2) / 2) ^ 2 = 1 / 2 := by
      have hdiv : -(Real.pi / 4 * 2) / 2 = -(Real.pi / 4) := by ring
      rw [hdiv, Real.sin_neg, neg_sq, Real.sin_pi_div_four]
      rw [div_pow, Real.sq_sqrt (by norm_num : (0:ℝ) ≤ 2)]
      norm_num
    have key : Real.sin (radians ((0:ℝ) - 0) / 2) ^ 2 +
        Real.cos (radians (0:ℝ)) * Real.cos (radians (0:ℝ)) *
          Real.sin (radians ((0:ℝ) - 90) / 2) ^ 2 = 1 / 2 := by
      rw [h00, h90, hs, zero_div, Real.sin_zero, hr0, Real.cos_zero]
      norm_num
    show 6371 * (2 * atan2
        (Real.sqrt (Real.sin (radians ((0:ℝ) - 0) / 2) ^ 2 +
          Real.cos (radians (0:ℝ)) * Real.cos (radians (0:ℝ)) *
            Real.sin (radians ((0:ℝ) - 90) / 2) ^ 2))
        (Real.sqrt (1 - (Real.sin (radians ((0:ℝ) - 0) / 2) ^ 2 +
          Real.cos (radians (0:ℝ)) * Real.cos (radians (0:ℝ)) *
            Real.sin (radians ((0:ℝ) - 90) / 2) ^ 2)))) ≠ 0
    rw [key]
    have hhalf : (1 : ℝ) - 1/2 = 1/2 := by norm_num
    rw [hhalf]
    have hpos : (0 : ℝ) < Real.sqrt (1/2) := Real.sqrt_pos.mpr (by norm_num)
    unfold atan2
    rw [if_pos hpos, div_self (ne_of_gt hpos), Real.arctan_one]
    have hppos := Real.pi_pos
    intro hcontr
    nlinarith [hcontr]

/-- A concrete configuration used by the concrete instances below, with the
spec's example values: `min_radius_km=0.3`, `shrink_step_km=0.5`,
`shrink_interval_min=30`, a 2 km safety margin and allowance ratio 0.15. -/
def cfgW : BubbleConfig :=
  { min_radius_km := 3/10
    shrink_step_km := 1/2
    shrink_interval_min := 30
    safety_margin_km := 2
    lateral_allowance_ratio := 3/20 }

/-- A geodesy kernel returning fixed distance and deviation values, for
concrete instances. -/
def constKernel (d dev : ℚ) : GeoKernel :=
  { haversine_km := fun _ _ _ _ => d
    point_to_segment_distance := fun _ _ _ _ _ _ => dev
    bearing := fun _ _ _ _ => 0 }

/-- A geodesy kernel whose distance is the (signed) latitude gap, for
concrete multi-step instances with nonnegative gaps. -/
def diffKernel : GeoKernel :=
  { haversine_km := fun la _ lb _ => la - lb
    point_to_segment_distance := fun _ _ _ _ _ _ => 0
    bearing := fun _ _ _ _ => 0 }

/-- A boarding-house document with destination (0, 0). -/
def bhW : BHDoc := { yango_coordinates := some [0, 0], GPS_coordinates := none }

/-- The start breadcrumb of the concrete session below. -/
def startCrumbW : Breadcrumb :=
  { lat := 0, lon := 0, captured_at := 0, distance_to_dest_km := 0
    deviation_km := none, heading := "N", movement := "start"
    bubble_radius_km := 12, allowed_dev_km := 9/5 }

/-- A concrete active session (R0 = 12 km), parameterized by its last
recorded deviation. -/
def sessionW (lastDev : ℚ) : Session :=
  { session_id := "s1", university := "u", user_id := "st"
    boardinghouse_id := "bh", started_at := some 0, status := "active"
    origin := ⟨0, 0⟩, destination := ⟨0, 0⟩, distance_km_straight := 10
    bubble :=
      { center := ⟨0, 0⟩, radius_km := 12, R0_km := 12, min_radius_km := 3/10
        shrink_step_km := 1/2, shrink_interval_min := 30, last_shrink_at := 0
        shrink_step_count := 0, cardinal := ⟨12, 12, 12, 12⟩ }
    client_note := none, breadcrumbs := [startCrumbW]
    metrics :=
      { points_logged := 1, max_deviation_km := 0, last_distance_km := 0
        last_deviation_km := lastDev }
    alerts := [], bubble_history := [], last_updated_at := none }

/-- The concrete session above, cancelled. -/
def sessionC : Session := { sessionW 0 with status := "cancelled" }

/-- A one-session store holding the cancelled session. -/
def stW : Store := [("s1", sessionC)]

/-- C1: for every successful `ResumeSession` on an active session, the newly
computed bubble radius is `max(min_radius_km, d + safety_margin_km,
R0 − ⌊elapsed/shrink_interval_min⌋·shrink_step_km)` with elapsed minutes
measured from `started_at` (the stored value carries the source's 3-decimal
rounding `round3`); and at `StartSession` the initial radius R0 is
`max(2 km, straight-line distance + 2 km)` (stored rounded likewise). -/
theorem resume_radius_formula_and_start_R0 :
    (∀ (cfg : BubbleConfig) (K : GeoKernel) (s : Session)
        (bhMain bhFallback : Option BHDoc) (bid : String)
        (la lo : Option ℚ) (sd : Option StudentDoc) (now : ℚ)
        (dla dlo : ℚ) (cur : GeoPoint) (t0 : ℚ),
      s.status = "active" →
      get_boardinghouse_coords bhMain bhFallback = .ok (dla, dlo) →
      resolveCurrent la lo sd = .ok cur →
      s.started_at = some t0 →
      ∃ (s' : Session) (resp : ResumeResponse),
        resumeOnSession cfg K s bhMain bhFallback bid la lo sd now =
          .ok (s', resp) ∧
        s'.bubble.radius_km = round3 (max cfg.min_radius_km
          (max (K.haversine_km cur.lat cur.lon dla dlo + cfg.safety_margin_km)
            (s.bubble.R0_km -
              (⌊(now - t0) / cfg.shrink_interval_min⌋ : ℚ) *
                cfg.shrink_step_km))))
    ∧ (∀ (cfg : BubbleConfig) (K : GeoKernel) (u sid bid : String)
        (bhMain bhFallback : Option BHDoc) (la lo : Option ℚ)
        (sd : Option StudentDoc) (note : Option String) (ssid : String)
        (now : ℚ) (dla dlo : ℚ) (o : GeoPoint),
      get_boardinghouse_coords bhMain bhFallback = .ok (dla, dlo) →
      resolveCurrent la lo sd = .ok o →
      ∃ (s0 : Session) (idx : IndexRecord) (resp : StartResponse),
        start_session_by_house cfg K u sid bid bhMain bhFallback la lo sd
          note ssid now = .ok (s0, idx, resp) ∧
        s0.bubble.R0_km =
          round3 (max 2 (K.haversine_km o.lat o.lon dla dlo + 2))) := by
  constructor
  · intro cfg K s bhMain bhFallback bid la lo sd now dla dlo cur t0 ha hd hc ht
    have hstat : ¬ (s.status ≠ "active") := by simp [ha]
    simp only [resumeOnSession, hd, hc, ht, if_neg hstat]
    exact ⟨_, _, rfl, rfl⟩
  · intro cfg K u sid bid bhMain bhFallback la lo sd note ssid now dla dlo o hd hc
    simp only [start_session_by_house, hd, hc]
    exact ⟨_, _, _, rfl, rfl⟩

/-- Concrete instance of C1: both operations succeed on the fixtures and
yield the formula's value. -/
theorem resume_radius_formula_and_start_R0_witness :
    (∃ p, resumeOnSession cfgW (constKernel 10 (6/5)) (sessionW 0)
      (some bhW) none "bh" (some 0) (some 0) none 0 = .ok p)
    ∧ (∃ q, start_session_by_house cfgW (constKernel 10 (6/5)) "u" "st" "bh"
      (some bhW) none (some 0) (some 0) none none "sid" 0 = .ok q) := by
  constructor
  · obtain ⟨s', resp, hok, -⟩ :=
      resume_radius_formula_and_start_R0.1 cfgW (constKernel 10 (6/5))
        (sessionW 0) (some bhW) none "bh" (some 0) (some 0) none 0 0 0
        ⟨0, 0⟩ 0 rfl rfl rfl rfl
    exact ⟨(s', resp), hok⟩
  · obtain ⟨s0, idx, resp, hok, -⟩ :=
      resume_radius_formula_and_start_R0.2 cfgW (constKernel 10 (6/5))
        "u" "st" "bh" (some bhW) none (some 0) (some 0) none none "sid" 0
        0 0 ⟨0, 0⟩ rfl rfl
    exact ⟨(s0, idx, resp), hok⟩

/-- Inversion of a successful start: the resolutions succeeded and the new
session's stored radius and last-distance metric have the computed values. -/
theorem start_ok_inversion {cfg : BubbleConfig} {K : GeoKernel}
    {u sid bid : String} {bhMain bhFallback : Option BHDoc}
    {la lo : Option ℚ} {sd : Option StudentDoc} {note : Option String}
    {ssid : String} {now : ℚ} {s : Session} {idx : IndexRecord}
    {resp : StartResponse}
    (hok : start_session_by_house cfg K u sid bid bhMain bhFallback la lo sd
      note ssid now = .ok (s, idx, resp)) :
    ∃ (dla dlo : ℚ) (o : GeoPoint),
      get_boardinghouse_coords bhMain bhFallback = .ok (dla, dlo) ∧
      resolveCurrent la lo sd = .ok o ∧
      s.bubble.radius_km =
        round3 (max 2 (K.haversine_km o.lat o.lon dla dlo + 2)) ∧
      s.metrics.last_distance_km =
        round3 (K.haversine_km o.lat o.lon dla dlo) := by
  unfold start_session_by_house at hok
  split at hok
  · exact absurd hok (by simp)
  · rename_i dla dlo hd
    split at hok
    · exact absurd hok (by simp)
    · rename_i o hc
      rw [Except.ok.injEq, Prod.mk.injEq] at hok
      obtain ⟨h1, -⟩ := hok
      subst h1
      exact ⟨dla, dlo, o, hd, hc, rfl, rfl⟩

/-- Inversion of a successful resume: the session was active, the
resolutions succeeded, and the updated session's stored radius and
last-distance metric have the computed values. -/
theorem resume_ok_inversion {cfg : BubbleConfig} {K : GeoKernel} {s : Session}
    {bhMain bhFallback : Option BHDoc} {bid : String} {la lo : Option ℚ}
    {sd : Option StudentDoc} {now : ℚ} {s' : Session} {resp : ResumeResponse}
    (hok : resumeOnSession cfg K s bhMain bhFallback bid la lo sd now =
      .ok (s', resp)) :
    ∃ (dla dlo : ℚ) (cur : GeoPoint),
      s.status = "active" ∧
      get_boardinghouse_coords bhMain bhFallback = .ok (dla, dlo) ∧
      resolveCurrent la lo sd = .ok cur ∧
      s'.bubble.radius_km = round3 (computeRadius cfg s.bubble.R0_km
        (K.haversine_km cur.lat cur.lon dla dlo)
        (computeElapsed s.started_at now)) ∧
      s'.metrics.last_distance_km =
        round3 (K.haversine_km cur.lat cur.lon dla dlo) := by
  unfold resumeOnSession at hok
  split at hok
  · exact absurd hok (by simp)
  · rename_i hstat
    split at hok
    · exact absurd hok (by simp)
    · rename_i dla dlo hd
      split at hok
      · exact absurd hok (by simp)
      · rename_i cur hc
        rw [Except.ok.injEq, Prod.mk.injEq] at hok
        obtain ⟨h1, -⟩ := hok
        subst h1
        exact ⟨dla, dlo, cur, not_ne_iff.mp hstat, hd, hc, rfl, rfl⟩

/-- The two floor bounds survive the 3-decimal store rounding provided the
configured floor is expressible in thousandths of a km and the safety margin
in even thousandths. -/
theorem round3_floor_bounds (cfg : BubbleConfig)
    (hmin : ∃ m : ℤ, cfg.min_radius_km = (m : ℚ) / 1000)
    (hsaf : ∃ k : ℤ, cfg.safety_margin_km = (k : ℚ) / 500)
    {x d : ℚ} (hx1 : cfg.min_radius_km ≤ x)
    (hx2 : d + cfg.safety_margin_km ≤ x) :
    cfg.min_radius_km ≤ round3 x ∧
    round3 d + cfg.safety_margin_km ≤ round3 x := by
  obtain ⟨m, hm⟩ := hmin
  obtain ⟨k, hk⟩ := hsaf
  constructor
  · calc cfg.min_radius_km = round3 cfg.min_radius_km := by
          rw [hm, round3_thousandth]
      _ ≤ round3 x := round3_mono hx1
  · calc round3 d + cfg.safety_margin_km
        = round3 (d + cfg.safety_margin_km) := by
          rw [hk, round3_add_div500]
      _ ≤ round3 x := round3_mono hx2

/-- C2: in every reachable session state the stored bubble radius is at
least `min_radius_km` and at least the last recorded distance to the
destination plus `safety_margin_km` (for configurations whose floor is a
whole number of thousandths of a km, bounded by the start formula's 2 km,
and whose safety margin is an even number of thousandths, at most the 2 km
the start formula hard-codes). -/
theorem radius_floor_invariant (cfg : BubbleConfig) (K : GeoKernel)
    (hmin : ∃ m : ℤ, cfg.min_radius_km = (m : ℚ) / 1000)
    (hminle : cfg.min_radius_km ≤ 2)
    (hsaf : ∃ k : ℤ, cfg.safety_margin_km = (k : ℚ) / 500)
    (hsafle : cfg.safety_margin_km ≤ 2)
    (s : Session) (hs : ReachableSession cfg K s) :
    cfg.min_radius_km ≤ s.bubble.radius_km ∧
    s.metrics.last_distance_km + cfg.safety_margin_km ≤ s.bubble.radius_km := by
  induction hs with
  | start_case u sid bid bhMain bhFallback la lo sd note ssid now s idx resp hok =>
    obtain ⟨dla, dlo, o, -, -, hrad, hdist⟩ := start_ok_inversion hok
    rw [hrad, hdist]
    exact round3_floor_bounds cfg ⟨_, (by exact hmin.choose_spec)⟩
      ⟨_, (by exact hsaf.choose_spec)⟩
      (le_trans hminle (le_max_left _ _))
      (le_trans (by linarith) (le_max_right _ _))
  | resume_case s bhMain bhFallback bid la lo sd now s' resp hreach hok ih =>
    obtain ⟨dla, dlo, cur, -, -, -, hrad, hdist⟩ := resume_ok_inversion hok
    rw [hrad, hdist]
    unfold computeRadius
    exact round3_floor_bounds cfg ⟨_, (by exact hmin.choose_spec)⟩
      ⟨_, (by exact hsaf.choose_spec)⟩
      (le_max_left _ _)
      (le_trans (le_max_left _ _) (le_max_right _ _))

/-- Concrete instance of C2: the invariant holds for the session created by
a concrete start. -/
theorem radius_floor_invariant_witness :
    ∃ (s : Session) (idx : IndexRecord) (resp : StartResponse),
      start_session_by_house cfgW (constKernel 10 (6/5)) "u" "st" "bh"
        (some bhW) none (some 0) (some 0) none none "sid" 0 =
        .ok (s, idx, resp) ∧
      cfgW.min_radius_km ≤ s.bubble.radius_km ∧
      s.metrics.last_distance_km + cfgW.safety_margin_km ≤
        s.bubble.radius_km := by
  refine ⟨_, _, _, rfl, ?_⟩
  exact radius_floor_invariant cfgW (constKernel 10 (6/5))
    ⟨300, by norm_num [cfgW]⟩ (by norm_num [cfgW])
    ⟨1000, by norm_num [cfgW]⟩ (by norm_num [cfgW]) _
    (ReachableSession.start_case "u" "st" "bh" (some bhW) none (some 0)
      (some 0) none none "sid" 0 _ _ _ rfl)

/-- C3: every `ResumeSession` precondition failure — session not found,
session not active, boarding house not resolvable, or no position available
either supplied or stored — returns the corresponding typed error and leaves
the store (hence breadcrumbs, metrics, bubble fields, alerts and
bubble_history of every session) unchanged. -/
theorem resume_failure_no_mutation (cfg : BubbleConfig) (K : GeoKernel)
    (st : Store) (session_id : String) (bhMain bhFallback : Option BHDoc)
    (bid : String) (la lo : Option ℚ) (sd : Option StudentDoc) (now : ℚ) :
    (storeFind st session_id = none →
      resume_session_by_house cfg K st session_id bhMain bhFallback bid
        la lo sd now = (st, .error .sessionNotFound))
    ∧ (∀ s : Session, storeFind st session_id = some s →
      s.status ≠ "active" →
      resume_session_by_house cfg K st session_id bhMain bhFallback bid
        la lo sd now = (st, .error .sessionNotActive))
    ∧ (∀ (s : Session) (e : TrackError), storeFind st session_id = some s →
      s.status = "active" →
      get_boardinghouse_coords bhMain bhFallback = .error e →
      resume_session_by_house cfg K st session_id bhMain bhFallback bid
        la lo sd now = (st, .error e))
    ∧ (∀ (s : Session) (p : ℚ × ℚ) (e : TrackError),
      storeFind st session_id = some s →
      s.status = "active" →
      get_boardinghouse_coords bhMain bhFallback = .ok p →
      resolveCurrent la lo sd = .error e →
      resume_session_by_house cfg K st session_id bhMain bhFallback bid
        la lo sd now = (st, .error e)) := by
  refine ⟨?_, ?_, ?_, ?_⟩
  · intro hfind
    simp only [resume_session_by_house, hfind]
  · intro s hfind hstat
    simp only [resume_session_by_house, hfind, resumeOnSession]
    rw [if_pos hstat]
  · intro s e hfind hstat hd
    simp only [resume_session_by_house, hfind, resumeOnSession, hd]
    rw [if_neg (by simp [hstat])]
  · intro s p e hfind hstat hd hc
    simp only [resume_session_by_house, hfind, resumeOnSession, hd, hc]
    rw [if_neg (by simp [hstat])]

/-- Concrete instance of C3: resuming a cancelled session fails with
`sessionNotActive` and returns the store unchanged (so the breadcrumb count
is unchanged). -/
theorem resume_failure_no_mutation_witness :
    resume_session_by_house cfgW (constKernel 10 (6/5)) stW "s1" (some bhW)
      none "bh" (some 0) (some 0) none 0 = (stW, .error .sessionNotActive) :=
  (resume_failure_no_mutation cfgW (constKernel 10 (6/5)) stW "s1"
    (some bhW) none "bh" (some 0) (some 0) none 0).2.1 sessionC rfl
    (by decide)

/-- Counterexample to C4 as stated: a resume call in which the deviation
(1.2 km) is within the allowed deviation (1.8 km) and the previous sample's
deviation (0) was within allowance, yet the call emits a hard warning —
the source's `elif dev_km >= 1.0` branch ignores the allowance. -/
theorem hard_alert_within_allowance_counterexample :
    ∃ (s' : Session) (resp : ResumeResponse),
      resumeOnSession cfgW (constKernel 10 (6/5)) (sessionW 0) (some bhW)
        none "bh" (some 0) (some 0) none 0 = .ok (s', resp) ∧
      resp.deviation_km = 6/5 ∧ resp.allowed_dev_km = 9/5 ∧
      resp.deviation_km ≤ resp.allowed_dev_km ∧
      (sessionW 0).metrics.last_deviation_km ≤ resp.allowed_dev_km ∧
      resp.alerts = [Alert.hard (6/5) (9/5) "N" "away from destination"] := by
  refine ⟨_, _, rfl, ?_, ?_, ?_, ?_, ?_⟩ <;>
    norm_num [sessionW, cfgW, constKernel, bhW, computeRadius, computeElapsed,
      direction_label, round3, pyRound]

/-- C4 amended: for every `ResumeSession` call in which the computed
deviation is within the allowed deviation, the previous sample's deviation
was within the allowance, and the deviation is also below the fixed 1 km
hard-alert threshold, the call emits no alert at all. -/
theorem no_alert_within_allowance_below_hard_threshold
    (cfg : BubbleConfig) (K : GeoKernel) (s : Session)
    (bhMain bhFallback : Option BHDoc) (bid : String) (la lo : Option ℚ)
    (sd : Option StudentDoc) (now : ℚ) (dla dlo : ℚ) (cur : GeoPoint)
    (dev allowed : ℚ)
    (ha : s.status = "active")
    (hd : get_boardinghouse_coords bhMain bhFallback = .ok (dla, dlo))
    (hc : resolveCurrent la lo sd = .ok cur)
    (hdev : dev = K.point_to_segment_distance cur.lat cur.lon
      s.origin.lat s.origin.lon dla dlo)
    (hallow : allowed = cfg.lateral_allowance_ratio *
      computeRadius cfg s.bubble.R0_km (K.haversine_km cur.lat cur.lon dla dlo)
        (computeElapsed s.started_at now))
    (h1 : dev ≤ allowed) (h2 : dev < 1)
    (h3 : s.metrics.last_deviation_km ≤ allowed) :
    ∃ (s' : Session) (resp : ResumeResponse),
      resumeOnSession cfg K s bhMain bhFallback bid la lo sd now =
        .ok (s', resp) ∧ resp.alerts = [] := by
  subst hdev
  subst hallow
  have hstat : ¬ (s.status ≠ "active") := by simp [ha]
  simp only [resumeOnSession, hd, hc, if_neg hstat]
  refine ⟨_, _, rfl, ?_⟩
  dsimp only
  rw [if_neg (by rintro ⟨hlt, -⟩; exact absurd hlt (not_lt.mpr h1)),
    if_neg (not_le.mpr h2),
    if_neg (by rintro ⟨hlt, -⟩; exact absurd hlt (not_lt.mpr h3))]
  rfl

/-- Concrete instance of the amended C4: deviation 0.1 km, allowance 1.8 km,
previous deviation 0 — the resume succeeds and emits no alert. -/
theorem no_alert_within_allowance_witness :
    ∃ (s' : Session) (resp : ResumeResponse),
      resumeOnSession cfgW (constKernel 10 (1/10)) (sessionW 0) (some bhW)
        none "bh" (some 0) (some 0) none 0 = .ok (s', resp) ∧
      resp.alerts = [] := by
  exact no_alert_within_allowance_below_hard_threshold cfgW
    (constKernel 10 (1/10)) (sessionW 0) (some bhW) none "bh" (some 0)
    (some 0) none 0 0 0 ⟨0, 0⟩ (1/10)
    (cfgW.lateral_allowance_ratio * computeRadius cfgW
      (sessionW 0).bubble.R0_km
      ((constKernel 10 (1/10)).haversine_km 0 0 0 0)
      (computeElapsed (sessionW 0).started_at 0))
    rfl rfl rfl rfl rfl
    (by norm_num [cfgW, sessionW, constKernel, computeRadius, computeElapsed])
    (by norm_num)
    (by norm_num [cfgW, sessionW, constKernel, computeRadius, computeElapsed])

/-- Counterexample to C5 as stated: a resume call with deviation 1.2 km,
allowance 1.8 km and previous deviation 2 km emits both a hard
deviation-overage alert and a return-to-corridor alert in the same call. -/
theorem hard_and_returning_together_counterexample :
    ∃ (s' : Session) (resp : ResumeResponse),
      resumeOnSession cfgW (constKernel 10 (6/5)) (sessionW 2) (some bhW)
        none "bh" (some 0) (some 0) none 0 = .ok (s', resp) ∧
      (∃ a ∈ resp.alerts, a.isHard = true) ∧
      (∃ a ∈ resp.alerts, a.isReturning = true) := by
  refine ⟨_, _, rfl, ?_, ?_⟩ <;>
    norm_num [sessionW, cfgW, constKernel, bhW, computeRadius, computeElapsed,
      direction_label, round3, pyRound, Alert.isHard, Alert.isReturning]

/-- C5 amended: every resume call emits zero, one or two alerts; the soft
and hard overage alerts are mutually exclusive; and the soft alert is
mutually exclusive with the return-to-corridor alert.  (A hard alert,
however, can appear together with a return-to-corridor alert, as the
counterexample shows.) -/
theorem alerts_bound_and_exclusions (cfg : BubbleConfig) (K : GeoKernel)
    (s : Session) (bhMain bhFallback : Option BHDoc) (bid : String)
    (la lo : Option ℚ) (sd : Option StudentDoc) (now : ℚ) (s' : Session)
    (resp : ResumeResponse)
    (hok : resumeOnSession cfg K s bhMain bhFallback bid la lo sd now =
      .ok (s', resp)) :
    resp.alerts.length ≤ 2 ∧
    ¬((∃ a ∈ resp.alerts, a.isSoft = true) ∧
      (∃ a ∈ resp.alerts, a.isHard = true)) ∧
    ¬((∃ a ∈ resp.alerts, a.isSoft = true) ∧
      (∃ a ∈ resp.alerts, a.isReturning = true)) := by
  unfold resumeOnSession at hok
  split at hok
  · exact absurd hok (by simp)
  · split at hok
    · exact absurd hok (by simp)
    · rename_i dla dlo hd
      split at hok
      · exact absurd hok (by simp)
      · rename_i cur hc
        rw [Except.ok.injEq, Prod.mk.injEq] at hok
        obtain ⟨-, h2⟩ := hok
        subst h2
        dsimp only
        by_cases hc1 : cfg.lateral_allowance_ratio *
            computeRadius cfg s.bubble.R0_km
              (K.haversine_km cur.lat cur.lon dla dlo)
              (computeElapsed s.started_at now) <
            K.point_to_segment_distance cur.lat cur.lon s.origin.lat
              s.origin.lon dla dlo ∧
            K.point_to_segment_distance cur.lat cur.lon s.origin.lat
              s.origin.lon dla dlo < 1
        · by_cases hc3 : cfg.lateral_allowance_ratio *
              computeRadius cfg s.bubble.R0_km
                (K.haversine_km cur.lat cur.lon dla dlo)
                (computeElapsed s.started_at now) <
              s.metrics.last_deviation_km ∧
              K.point_to_segment_distance cur.lat cur.lon s.origin.lat
                s.origin.lon dla dlo ≤
              cfg.lateral_allowance_ratio * computeRadius cfg s.bubble.R0_km
                (K.haversine_km cur.lat cur.lon dla dlo)
                (computeElapsed s.started_at now)
          · exact absurd hc3.2 (not_le.mpr hc1.1)
          · rw [if_pos hc1, if_neg hc3]
            simp [Alert.isSoft, Alert.isHard, Alert.isReturning]
        · rw [if_neg hc1]
          by_cases hc2 : (1:ℚ) ≤ K.point_to_segment_distance cur.lat cur.lon
              s.origin.lat s.origin.lon dla dlo
          all_goals
            by_cases hc3 : cfg.lateral_allowance_ratio *
                computeRadius cfg s.bubble.R0_km
                  (K.haversine_km cur.lat cur.lon dla dlo)
                  (computeElapsed s.started_at now) <
                s.metrics.last_deviation_km ∧
                K.point_to_segment_distance cur.lat cur.lon s.origin.lat
                  s.origin.lon dla dlo ≤
                cfg.lateral_allowance_ratio * computeRadius cfg s.bubble.R0_km
                  (K.haversine_km cur.lat cur.lon dla dlo)
                  (computeElapsed s.started_at now)
          all_goals
            simp [hc2, hc3, Alert.isSoft, Alert.isHard, Alert.isReturning]

/-- Concrete instance of the amended C5: the hard-plus-returning call yields
exactly its two alerts, within the bound. -/
theorem alerts_bound_witness :
    ∃ (s' : Session) (resp : ResumeResponse),
      resumeOnSession cfgW (constKernel 10 (6/5)) (sessionW 2) (some bhW)
        none "bh" (some 0) (some 0) none 0 = .ok (s', resp) ∧
      resp.alerts.length ≤ 2 := by
  refine ⟨_, _, rfl, ?_⟩
  exact (alerts_bound_and_exclusions cfgW (constKernel 10 (6/5)) (sessionW 2)
    (some bhW) none "bh" (some 0) (some 0) none 0 _ _ rfl).1

theorem arrayUnion_singleton_of_not_mem {α : Type} [DecidableEq α]
    {xs : List α} {a : α} (h : a ∉ xs) : arrayUnion xs [a] = xs ++ [a] := by
  simp [arrayUnion, h]

/-- C6: every successful resume whose sample timestamp differs from every
stored breadcrumb's timestamp appends exactly one breadcrumb — the sequence
grows by exactly 1 and the previously written breadcrumbs are preserved
unchanged as a prefix.  (The timestamp condition is what makes the store's
`ArrayUnion` write an actual append.) -/
theorem breadcrumb_append_exactly_one (cfg : BubbleConfig) (K : GeoKernel)
    (s : Session) (bhMain bhFallback : Option BHDoc) (bid : String)
    (la lo : Option ℚ) (sd : Option StudentDoc) (now : ℚ) (dla dlo : ℚ)
    (cur : GeoPoint)
    (ha : s.status = "active")
    (hd : get_boardinghouse_coords bhMain bhFallback = .ok (dla, dlo))
    (hc : resolveCurrent la lo sd = .ok cur)
    (hfresh : ∀ b ∈ s.breadcrumbs, b.captured_at ≠ now) :
    ∃ (s' : Session) (resp : ResumeResponse),
      resumeOnSession cfg K s bhMain bhFallback bid la lo sd now =
        .ok (s', resp) ∧
      (∃ p : Breadcrumb, s'.breadcrumbs = s.breadcrumbs ++ [p]) ∧
      s'.breadcrumbs.length = s.breadcrumbs.length + 1 := by
  have hstat : ¬ (s.status ≠ "active") := by simp [ha]
  simp only [resumeOnSession, hd, hc, if_neg hstat]
  refine ⟨_, _, rfl, ?_, ?_⟩ <;> dsimp only
  · refine ⟨_, arrayUnion_singleton_of_not_mem (fun hmem => ?_)⟩
    exact hfresh _ hmem rfl
  · rw [arrayUnion_singleton_of_not_mem (fun hmem => hfresh _ hmem rfl)]
    simp

/-- Concrete instance of C6: resuming the concrete session at a fresh
timestamp grows its single-breadcrumb list to length 2. -/
theorem breadcrumb_append_exactly_one_witness :
    ∃ (s' : Session) (resp : ResumeResponse),
      resumeOnSession cfgW (constKernel 10 (1/10)) (sessionW 0) (some bhW)
        none "bh" (some 0) (some 0) none 5 = .ok (s', resp) ∧
      s'.breadcrumbs.length = (sessionW 0).breadcrumbs.length + 1 := by
  obtain ⟨s', resp, hok, -, hlen⟩ :=
    breadcrumb_append_exactly_one cfgW (constKernel 10 (1/10)) (sessionW 0)
      (some bhW) none "bh" (some 0) (some 0) none 5 0 0 ⟨0, 0⟩ rfl rfl rfl
      (by intro b hb
          simp only [sessionW, List.mem_singleton] at hb
          subst hb
          norm_num [startCrumbW])
  exact ⟨s', resp, hok, hlen⟩

/-- Counterexample to C8 as stated: for a start whose straight-line distance
is 1/2000 km, the single start breadcrumb records distance 0 (the 3-decimal
store rounding), not the haversine value, and carries no deviation value at
all (the source writes no `deviation_km` key in the start entry). -/
theorem start_breadcrumb_counterexample :
    ∃ (s0 : Session) (idx : IndexRecord) (resp : StartResponse),
      start_session_by_house cfgW (constKernel (1/2000) 0) "u" "st" "bh"
        (some bhW) none (some 0) (some 0) none none "sid" 0 =
        .ok (s0, idx, resp) ∧
      ∃ b : Breadcrumb, s0.breadcrumbs = [b] ∧
        ¬(b.distance_to_dest_km =
            (constKernel (1/2000) 0).haversine_km 0 0 0 0 ∧
          b.deviation_km = some 0) := by
  refine ⟨_, _, _, rfl, _, rfl, ?_⟩
  rintro ⟨-, h2⟩
  simp at h2

/-- C8 amended: `StartSession` initializes `breadcrumbs` with exactly one
"start" entry whose recorded distance is the 3-decimal rounding of
`HaversineKm(origin, destination)` and which carries no deviation value;
the deviation metrics (`max_deviation_km`, `last_deviation_km`) are
initialized to 0. -/
theorem start_breadcrumb_spec (cfg : BubbleConfig) (K : GeoKernel)
    (u sid bid : String) (bhMain bhFallback : Option BHDoc)
    (la lo : Option ℚ) (sd : Option StudentDoc) (note : Option String)
    (ssid : String) (now : ℚ) (dla dlo : ℚ) (o : GeoPoint)
    (hd : get_boardinghouse_coords bhMain bhFallback = .ok (dla, dlo))
    (hc : resolveCurrent la lo sd = .ok o) :
    ∃ (s0 : Session) (idx : IndexRecord) (resp : StartResponse),
      start_session_by_house cfg K u sid bid bhMain bhFallback la lo sd
        note ssid now = .ok (s0, idx, resp) ∧
      s0.breadcrumbs =
        [{ lat := o.lat
           lon := o.lon
           captured_at := now
           distance_to_dest_km := round3 (K.haversine_km o.lat o.lon dla dlo)
           deviation_km := none
           heading := direction_label (K.bearing o.lat o.lon o.lat o.lon)
           movement := "start"
           bubble_radius_km :=
             round3 (max 2 (K.haversine_km o.lat o.lon dla dlo + 2))
           allowed_dev_km := round3 (cfg.lateral_allowance_ratio *
             max 2 (K.haversine_km o.lat o.lon dla dlo + 2)) }] ∧
      s0.metrics.max_deviation_km = 0 ∧
      s0.metrics.last_deviation_km = 0 := by
  simp only [start_session_by_house, hd, hc]
  exact ⟨_, _, _, rfl, rfl, rfl, rfl⟩

/-- Concrete instance of the amended C8: the concrete start records
deviation metrics 0. -/
theorem start_breadcrumb_spec_witness :
    ∃ (s0 : Session) (idx : IndexRecord) (resp : StartResponse),
      start_session_by_house cfgW (constKernel (1/2000) 0) "u" "st" "bh"
        (some bhW) none (some 0) (some 0) none none "sid" 0 =
        .ok (s0, idx, resp) ∧
      s0.metrics.last_deviation_km = 0 := by
  obtain ⟨s0, idx, resp, hok, -, -, hlast⟩ :=
    start_breadcrumb_spec cfgW (constKernel (1/2000) 0) "u" "st" "bh"
      (some bhW) none (some 0) (some 0) none none "sid" 0 0 0 ⟨0, 0⟩ rfl rfl
  exact ⟨s0, idx, resp, hok, hlast⟩

/-- C9: a resume of an active session whose `started_at` is missing or
unparseable does not fail for that reason: it succeeds (given the other
preconditions), applies zero shrink steps, and its candidate radius is R0 —
the stored radius is `max(min_radius_km, d + safety_margin_km, R0)`
(rounded for the store). -/
theorem resume_missing_started_at (cfg : BubbleConfig) (K : GeoKernel)
    (s : Session) (bhMain bhFallback : Option BHDoc) (bid : String)
    (la lo : Option ℚ) (sd : Option StudentDoc) (now : ℚ) (dla dlo : ℚ)
    (cur : GeoPoint)
    (ha : s.status = "active")
    (hd : get_boardinghouse_coords bhMain bhFallback = .ok (dla, dlo))
    (hc : resolveCurrent la lo sd = .ok cur)
    (ht : s.started_at = none) :
    ∃ (s' : Session) (resp : ResumeResponse),
      resumeOnSession cfg K s bhMain bhFallback bid la lo sd now =
        .ok (s', resp) ∧
      s'.bubble.shrink_step_count = 0 ∧
      s'.bubble.radius_km = round3 (max cfg.min_radius_km
        (max (K.haversine_km cur.lat cur.lon dla dlo + cfg.safety_margin_km)
          s.bubble.R0_km)) := by
  have hstat : ¬ (s.status ≠ "active") := by simp [ha]
  simp only [resumeOnSession, hd, hc, ht, if_neg hstat]
  refine ⟨_, _, rfl, ?_, ?_⟩ <;> dsimp only [computeElapsed]
  · simp
  · simp [computeRadius]

/-- Concrete instance of C9: the concrete session with `started_at` removed
still resumes, with zero shrink steps. -/
theorem resume_missing_started_at_witness :
    ∃ (s' : Session) (resp : ResumeResponse),
      resumeOnSession cfgW (constKernel 10 (1/10))
        { sessionW 0 with started_at := none } (some bhW) none "bh"
        (some 0) (some 0) none 0 = .ok (s', resp) ∧
      s'.bubble.shrink_step_count = 0 := by
  obtain ⟨s', resp, hok, hsteps, -⟩ :=
    resume_missing_started_at cfgW (constKernel 10 (1/10))
      { sessionW 0 with started_at := none } (some bhW) none "bh"
      (some 0) (some 0) none 0 0 0 ⟨0, 0⟩ rfl rfl rfl rfl
  exact ⟨s', resp, hok, hsteps⟩

/-- C10: the stored bubble radius is not monotone non-increasing — a
concrete session started at distance 0 (radius 2 km), resumed at distance
3 km (radius 5 km) and then at distance 10 km, stores a strictly larger
radius (12 km) on the later resume than on the preceding one, because the
distance-plus-safety-margin floor exceeds the previously stored radius. -/
theorem radius_not_monotone :
    ∃ (s0 : Session) (idx : IndexRecord) (resp0 : StartResponse)
      (s1 : Session) (resp1 : ResumeResponse)
      (s2 : Session) (resp2 : ResumeResponse),
      start_session_by_house cfgW diffKernel "u" "st" "bh" (some bhW) none
        (some 0) (some 0) none none "sid" 0 = .ok (s0, idx, resp0) ∧
      resumeOnSession cfgW diffKernel s0 (some bhW) none "bh" (some 3)
        (some 0) none 0 = .ok (s1, resp1) ∧
      resumeOnSession cfgW diffKernel s1 (some bhW) none "bh" (some 10)
        (some 0) none 0 = .ok (s2, resp2) ∧
      s1.bubble.radius_km < s2.bubble.radius_km := by
  refine ⟨_, _, _, _, _, _, _, rfl, rfl, rfl, ?_⟩
  norm_num [cfgW, diffKernel, bhW, computeRadius, computeElapsed,
    direction_label, round3, pyRound]

end Kleno
